import Mathlib

/-!
# Verification of the meathead-mode WHOOP client

A shallow embedding of `src/utils/resources/whoop.py` and
`src/utils/auth.py`, together with proofs of the testable properties of
the spec.

Modelling conventions:
* JSON values are the inductive `Json` below; a JSON object (and a Python
  dict loaded from one) is an association list `List (String × Json)`
  with unique keys, accessed in order by `dictGet`.
* The config file on disk is `ConfigFile := Option (List (String × Json))`:
  `none` stands for a missing or unparseable file (the code logs and
  treats it as the empty dict), `some fields` for a parsed JSON object.
* Network I/O is modelled by passing each HTTP response the program might
  receive as an explicit argument (`HttpResponse`), and by recording every
  outbound request in a trace of `Event`s.
* Python exceptions (`UnboundLocalError`, `requests.HTTPError` raised by
  `raise_for_status`) become the `PyError` error component of `Except`.
* Log statements that the claims mention are recorded as `LogEvent`s.
-/

/-- A JSON value, as produced by Python's `json.load` / `res.json()`. -/
inductive Json where
  | null : Json
  | str : String → Json
  | num : Int → Json
  | bool : Bool → Json
  | arr : List Json → Json
  | obj : List (String × Json) → Json

/-- Dictionary lookup on an association list: Python `d[k]` / `k in d`.
`none` means the key is absent. -/
def dictGet {α : Type} : List (String × α) → String → Option α
  | [], _ => none
  | (k, v) :: rest, key => if k == key then some v else dictGet rest key

/-- Python `d.get(k, default)`: the stored value when the key is present
(even when that value is `null`), the default otherwise. -/
def dictGetD (obj : List (String × Json)) (key : String) (default : Json) : Json :=
  (dictGet obj key).getD default

/-- Python `d[k] = v` on a dict: replaces the value in place when the key
exists, appends a new entry otherwise. -/
def setKey : List (String × Json) → String → Json → List (String × Json)
  | [], key, v => [(key, v)]
  | (k, w) :: rest, key, v =>
      if k == key then (key, v) :: rest else (k, w) :: setKey rest key v

/-- Python `d.pop(k)`: removes the (unique) entry for the key. -/
def delKey : List (String × Json) → String → List (String × Json)
  | [], _ => []
  | (k, w) :: rest, key =>
      if k == key then rest else (k, w) :: delKey rest key

/-- The contents of `config.json`: `none` when the file is missing or not
valid JSON, `some fields` when it parses to a JSON object. -/
def ConfigFile : Type := Option (List (String × Json))

/-- `Whoop._load_config`: returns the parsed object, or the empty dict after
logging when the file is missing or malformed (`FileNotFoundError`,
`json.JSONDecodeError` and the catch-all all return `{}`). -/
def Whoop._load_config (file : ConfigFile) : List (String × Json) :=
  file.getD []

/-- Python `config.get(key)` as used on loaded JSON: JSON `null` loads as
Python `None`, and `dict.get` returns `None` both for an absent key and
for a stored `None`; this collapses both to `none`. -/
def pyGet (config : List (String × Json)) (key : String) : Option Json :=
  match dictGet config key with
  | some Json.null => none
  | v => v

/-- Python `str(x)` for the values interpolated into the Authorization
header f-string. `str(None)` is the four-character string `"None"`.
Composite values never occur as tokens in the claims; their rendering is
abbreviated. -/
def pyStr : Json → String
  | Json.null => "None"
  | Json.str s => s
  | Json.num n => toString n
  | Json.bool b => if b then "True" else "False"
  | Json.arr _ => "[...]"
  | Json.obj _ => "{...}"

/-- Rendering of an `Option Json` Python value in an f-string. -/
def pyStrOpt : Option Json → String
  | none => "None"
  | some v => pyStr v

/-! ## `src/utils/auth.py`: the OAuth callback handler -/

/-- Value of a single hex digit, or `none`. -/
def hexVal (c : Char) : Option Nat :=
  if '0' ≤ c ∧ c ≤ '9' then some (c.toNat - '0'.toNat)
  else if 'a' ≤ c ∧ c ≤ 'f' then some (c.toNat - 'a'.toNat + 10)
  else if 'A' ≤ c ∧ c ≤ 'F' then some (c.toNat - 'A'.toNat + 10)
  else none

/-- Percent-decoding with `+` → space, on a character list. Invalid escapes
are kept literally, as in `urllib.parse.unquote`. Multi-byte UTF-8 escapes
are not modelled; the claims only exercise ASCII. -/
def unquoteChars : List Char → List Char
  | [] => []
  | '%' :: a :: b :: rest =>
      match hexVal a, hexVal b with
      | some x, some y => Char.ofNat (16 * x + y) :: unquoteChars rest
      | _, _ => '%' :: unquoteChars (a :: b :: rest)
  | '+' :: rest => ' ' :: unquoteChars rest
  | c :: rest => c :: unquoteChars rest

/-- `urllib.parse.unquote_plus`. -/
def unquotePlus (s : String) : String :=
  String.mk (unquoteChars s.data)

/-- Split a character list on a separator character (`str.split(sep)` for
a one-character separator, which is all this code base uses). -/
def splitChars (sep : Char) : List Char → List (List Char)
  | [] => [[]]
  | c :: rest =>
      if c == sep then [] :: splitChars sep rest
      else
        match splitChars sep rest with
        | [] => [[c]]
        | g :: gs => (c :: g) :: gs

/-- `s.split(sep)` for a one-character separator, on strings. -/
def splitOnChar (sep : Char) (s : String) : List String :=
  (splitChars sep s.data).map String.mk

/-- Rejoin string pieces with a separator (inverse of splitting; used to
model splitting only at the *first* occurrence of a separator). -/
def joinSep (sep : String) : List String → String
  | [] => ""
  | [s] => s
  | s :: rest => s ++ sep ++ joinSep sep rest

/-- `urllib.parse.parse_qsl` with default arguments: split the query on
`&`, split each field at the first `=`, drop fields with a blank value
(`keep_blank_values=False`), percent-decode names and values. -/
def parse_qsl (qs : String) : List (String × String) :=
  (splitOnChar '&' qs).filterMap (fun nameValue =>
    if nameValue == "" then none
    else
      match splitOnChar '=' nameValue with
      | [] => none
      | [_] => none
      | name :: rest =>
          let value := joinSep "=" rest
          if value == "" then none
          else some (unquotePlus name, unquotePlus value))

/-- Insert one parsed pair into the dict-of-lists built by `parse_qs`. -/
def addQueryPair : List (String × List String) → String → String →
    List (String × List String)
  | [], k, v => [(k, [v])]
  | (k, vs) :: rest, key, v =>
      if k == key then (k, vs ++ [v]) :: rest
      else (k, vs) :: addQueryPair rest key v

/-- `urllib.parse.parse_qs`: group the `parse_qsl` pairs by name. -/
def parse_qs (qs : String) : List (String × List String) :=
  (parse_qsl qs).foldl (fun acc p => addQueryPair acc p.1 p.2) []

/-- `urlparse(path).query`: the part of the request target after the first
`?`, with any fragment (after the first `#`) removed first. -/
def urlQuery (path : String) : String :=
  let noFrag := (splitOnChar '#' path).headD ""
  match splitOnChar '?' noFrag with
  | [] => ""
  | [_] => ""
  | _ :: rest => joinSep "?" rest

/-- The observable outcome of `OAuthCallbackHandler.do_GET`: the response
status, `Content-type` header (when sent), response body, and the value of
the class attribute `callback_code` after the request. -/
structure HandlerResponse where
  status : Nat
  contentType : Option String
  body : String
  callback_code : Option String
  deriving Repr, DecidableEq

/-- `OAuthCallbackHandler.do_GET`: parses the request path's query string;
when a `code` parameter is present, stores its first value in the class
attribute and responds 200 with a fixed HTML message; otherwise responds
400 with a fixed message, leaving the class attribute (`prevCode`)
untouched. -/
def OAuthCallbackHandler.do_GET (path : String) (prevCode : Option String) :
    HandlerResponse :=
  match dictGet (parse_qs (urlQuery path)) "code" with
  | some (v :: _) =>
      { status := 200
        contentType := some "text/html"
        body := "Authorization successful! You can close this window."
        callback_code := some v }
  | _ =>
      { status := 400
        contentType := none
        body := "Missing authorization code in the callback URL."
        callback_code := prevCode }

/-! ## `src/utils/resources/whoop.py`: the Whoop resource -/

/-- `Whoop.BASE_URL`. -/
def Whoop.BASE_URL : String := "https://api.prod.whoop.com/developer/v2"

/-- The OAuth token endpoint used by `init_auth_flow` and
`refresh_access_tokens`. -/
def Whoop.tokenUrl : String := "https://api.prod.whoop.com/oauth/oauth2/token"

/-- An HTTP response as the `requests` library delivers it. The claims
only exercise responses whose body parses (`res.json()`) to a JSON
object, so the body is carried as the object's fields. -/
structure HttpResponse where
  status : Nat
  body : List (String × Json)

/-- A Python exception escaping a modelled method: `UnboundLocalError`
(reading the never-assigned `url` after the unmatched record-type chain)
or `requests.HTTPError` (from `raise_for_status`). -/
inductive PyError where
  | unboundLocal : String → PyError
  | httpError : Nat → PyError

/-- An outbound HTTP request: `requests.get` with its URL and
Authorization header value, or `requests.post` with its URL. -/
inductive Event where
  | httpGet : String → String → Event
  | httpPost : String → Event
  deriving Repr, DecidableEq

/-- `true` exactly on `requests.get` events. -/
def Event.isGet : Event → Bool
  | Event.httpGet _ _ => true
  | Event.httpPost _ => false

/-- `true` exactly on `requests.post` events. -/
def Event.isPost : Event → Bool
  | Event.httpGet _ _ => false
  | Event.httpPost _ => true

/-- The log statements the claims mention. -/
inductive LogEvent where
  | errorInvalidRecordType : String → LogEvent
  | errorAccessTokenMissing : LogEvent
  | warningRefreshing : LogEvent
  | errorFetch : String → LogEvent
  deriving Repr, DecidableEq

/-- `Whoop._fetch_access_token`: loads the config; when
`config.get("access_token")` is Python `None` (key absent or JSON null),
logs an error and returns `None`; otherwise returns the stored value. -/
def Whoop._fetch_access_token (file : ConfigFile) : Option Json × List LogEvent :=
  let config := Whoop._load_config file
  match pyGet config "access_token" with
  | none => (none, [LogEvent.errorAccessTokenMissing])
  | some v => (some v, [])

/-- `Whoop.refresh_access_tokens`: loads the config, POSTs the refresh
parameters to the token endpoint, and — without inspecting the response
status — stores `res.json().get("access_token")` and
`res.json().get("refresh_token")` (Python `None`, dumped as JSON null,
when absent) back into the config file. Returns the new file contents. -/
def Whoop.refresh_access_tokens (file : ConfigFile) (res : HttpResponse) :
    ConfigFile :=
  let params := Whoop._load_config file
  let params := setKey params "access_token" (dictGetD res.body "access_token" Json.null)
  let params := setKey params "refresh_token" (dictGetD res.body "refresh_token" Json.null)
  some params

/-- `Whoop.init_auth_flow`: loads the config, adds `grant_type` and the
captured callback `code`, POSTs to the token endpoint and calls
`raise_for_status` (which raises `HTTPError` for any 4xx/5xx status,
leaving the file untouched); on success pops the two request-specific
keys, stores the returned tokens and writes the file. The captured
callback code and the token response are the external inputs. -/
def Whoop.init_auth_flow (file : ConfigFile) (callbackCode : String)
    (tokenRes : HttpResponse) : Except PyError Unit × ConfigFile :=
  let params := Whoop._load_config file
  let params := setKey params "grant_type" (Json.str "authorization_code")
  let params := setKey params "code" (Json.str callbackCode)
  if 400 ≤ tokenRes.status ∧ tokenRes.status < 600 then
    (Except.error (PyError.httpError tokenRes.status), file)
  else
    let params := delKey params "grant_type"
    let params := delKey params "code"
    let params := setKey params "access_token" (dictGetD tokenRes.body "access_token" Json.null)
    let params := setKey params "refresh_token" (dictGetD tokenRes.body "refresh_token" Json.null)
    (Except.ok (), some params)

/-- The `required_keys` list of `Whoop.check_config`. -/
def Whoop.required_keys : List String :=
  ["client_id", "client_secret", "redirect_uri", "access_token", "refresh_token"]

/-- `Whoop.check_config`: the `missing_keys` list it computes and reports —
the required keys that are absent from the config **or** whose stored
value is `None` or the empty string (`config[key] in (None, "")`). -/
def Whoop.check_config (file : ConfigFile) : List String :=
  let config := Whoop._load_config file
  Whoop.required_keys.filter (fun key =>
    match dictGet config key with
    | none => true
    | some Json.null => true
    | some (Json.str s) => s == ""
    | some _ => false)

/-- Modelled from the spec: the set of required keys *missing from the
config file*, the quantity the spec's config-check property speaks of
("reports exactly the missing keys"). Kept separate from
`Whoop.check_config` (translated from the code) for comparison. -/
def specMissingKeys (config : List (String × Json)) : List String :=
  Whoop.required_keys.filter (fun key => (dictGet config key).isNone)

/-- The record-type → endpoint chain at the top of `Whoop.get_records`:
`none` for an unmatched selector, where the code logs
`Invalid record type` and leaves `url` unassigned. -/
def Whoop.recordUrl (record_type : String) : Option String :=
  if record_type == "sleep" then some (Whoop.BASE_URL ++ "/activity/sleep")
  else if record_type == "workout" then some (Whoop.BASE_URL ++ "/activity/workout")
  else if record_type == "profile" then some (Whoop.BASE_URL ++ "/user/profile/basic")
  else if record_type == "recovery" then some (Whoop.BASE_URL ++ "/recovery")
  else none

/-- The observable outcome of one `Whoop.get_records` call: the returned
value (or escaped exception), the outbound requests in order, the log
statements in order, and the config file afterwards. -/
structure FetchOutcome where
  result : Except PyError Json
  trace : List Event
  log : List LogEvent
  file : ConfigFile

/-- The tail of `Whoop.get_records` after the (possibly retried) request:
non-200 logs an error and returns `[]`; a 200 `profile` response is
wrapped whole in a one-element list; otherwise `res.json().get("records", [])`
is returned verbatim. -/
def Whoop.finishFetch (record_type : String) (res : HttpResponse)
    (trace : List Event) (log : List LogEvent) (file : ConfigFile) : FetchOutcome :=
  if res.status ≠ 200 then
    { result := Except.ok (Json.arr [])
      trace := trace
      log := log ++ [LogEvent.errorFetch record_type]
      file := file }
  else if record_type == "profile" then
    { result := Except.ok (Json.arr [Json.obj res.body])
      trace := trace, log := log, file := file }
  else
    { result := Except.ok (dictGetD res.body "records" (Json.arr []))
      trace := trace, log := log, file := file }

/-- `Whoop.get_records`: resolves the endpoint (an unmatched selector logs
an error and then raises `UnboundLocalError` at `requests.get(url=url, ...)`
before any request is made); issues the GET with
`Bearer {_fetch_access_token(...)}`; on a 401 logs a warning, refreshes the
tokens (one POST), and retries the GET exactly once with the re-fetched
token; then hands the final response to `finishFetch`. The three possible
upstream responses (first GET, refresh POST, retried GET) are explicit
inputs; the latter two are consumed only on the 401 path. -/
def Whoop.get_records (record_type : String) (file : ConfigFile)
    (res1 refreshRes res2 : HttpResponse) : FetchOutcome :=
  match Whoop.recordUrl record_type with
  | none =>
      { result := Except.error (PyError.unboundLocal "url")
        trace := []
        log := [LogEvent.errorInvalidRecordType record_type]
        file := file }
  | some url =>
      let fetch1 := Whoop._fetch_access_token file
      let ev1 := Event.httpGet url ("Bearer " ++ pyStrOpt fetch1.1)
      if res1.status == 401 then
        let file2 := Whoop.refresh_access_tokens file refreshRes
        let fetch2 := Whoop._fetch_access_token file2
        let ev2 := Event.httpGet url ("Bearer " ++ pyStrOpt fetch2.1)
        Whoop.finishFetch record_type res2
          [ev1, Event.httpPost Whoop.tokenUrl, ev2]
          (fetch1.2 ++ [LogEvent.warningRefreshing] ++ fetch2.2) file2
      else
        Whoop.finishFetch record_type res1 [ev1] fetch1.2 file

/-! ## Helper lemmas -/

/-- Reading back a key just written by `setKey` yields the written value. -/
theorem dictGet_setKey_same {l : List (String × Json)} {key : String} {v : Json} :
    dictGet (setKey l key v) key = some v := by
  induction l with
  | nil => simp [setKey, dictGet]
  | cons p rest ih =>
      obtain ⟨k, w⟩ := p
      by_cases h : k = key
      · simp [setKey, dictGet, h]
      · simp [setKey, dictGet, h, ih]

/-- `setKey` leaves every other key's value unchanged. -/
theorem dictGet_setKey_other {l : List (String × Json)} {key other : String} {v : Json}
    (h : other ≠ key) : dictGet (setKey l key v) other = dictGet l other := by
  induction l with
  | nil => simp [setKey, dictGet, Ne.symm h]
  | cons p rest ih =>
      obtain ⟨k, w⟩ := p
      by_cases hk : k = key
      · subst hk
        simp [setKey, dictGet, Ne.symm h, ih]
      · by_cases ho : k = other
        · simp [setKey, dictGet, hk, ho, h]
        · simp [setKey, dictGet, hk, ho, ih]

/-- `finishFetch` returns the trace it is handed, whatever the response. -/
theorem finishFetch_trace (record_type : String) (res : HttpResponse)
    (trace : List Event) (log : List LogEvent) (file : ConfigFile) :
    (Whoop.finishFetch record_type res trace log file).trace = trace := by
  unfold Whoop.finishFetch
  by_cases h : res.status = 200
  · by_cases hp : record_type = "profile" <;> simp [h, hp]
  · simp [h]

/-- Every log entry handed to `finishFetch` survives in its output log. -/
theorem finishFetch_log_mem {record_type : String} {res : HttpResponse}
    {trace : List Event} {log : List LogEvent} {file : ConfigFile} {x : LogEvent}
    (hx : x ∈ log) : x ∈ (Whoop.finishFetch record_type res trace log file).log := by
  unfold Whoop.finishFetch
  by_cases h : res.status = 200
  · by_cases hp : record_type = "profile" <;> simp [h, hp, hx]
  · simp [h, hx]

/-- On a non-200 final response, `finishFetch` returns the empty list and
appends the fetch-error log entry. -/
theorem finishFetch_non200 {record_type : String} {res : HttpResponse}
    {trace : List Event} {log : List LogEvent} {file : ConfigFile}
    (h : res.status ≠ 200) :
    (Whoop.finishFetch record_type res trace log file).result = Except.ok (Json.arr [])
    ∧ LogEvent.errorFetch record_type ∈ (Whoop.finishFetch record_type res trace log file).log := by
  unfold Whoop.finishFetch
  simp [h]

/-- On a 200 final response, `finishFetch` wraps the profile body whole,
and otherwise returns the `records` field (defaulting to `[]`). -/
theorem finishFetch_200 {record_type : String} {res : HttpResponse}
    {trace : List Event} {log : List LogEvent} {file : ConfigFile}
    (h : res.status = 200) :
    (Whoop.finishFetch record_type res trace log file).result =
      if record_type = "profile" then Except.ok (Json.arr [Json.obj res.body])
      else Except.ok (dictGetD res.body "records" (Json.arr [])) := by
  unfold Whoop.finishFetch
  by_cases hp : record_type = "profile" <;> simp [h, hp]

/-! ## Claim theorems -/

/-- C1: when the first GET of `get_records` returns HTTP 401, the call
performs exactly one token-refresh POST and exactly two GETs (the original
and one retry) — no second refresh or retry happens, whatever the status
of the retried response. -/
theorem get_records_401_one_refresh_one_retry
    (record_type url : String) (file : ConfigFile)
    (res1 refreshRes res2 : HttpResponse)
    (hurl : Whoop.recordUrl record_type = some url)
    (h401 : res1.status = 401) :
    ((Whoop.get_records record_type file res1 refreshRes res2).trace.countP
        (fun e => Event.isPost e) = 1)
    ∧ ((Whoop.get_records record_type file res1 refreshRes res2).trace.countP
        (fun e => Event.isGet e) = 2) := by
  unfold Whoop.get_records
  rw [hurl]
  simp only [h401]
  norm_num
  simp [finishFetch_trace, List.countP_cons, Event.isGet, Event.isPost]

/-- Witness for C1 at a concrete input: record type `sleep`, first response
401, retried response 500. -/
theorem get_records_401_one_refresh_one_retry_witness :
    Whoop.recordUrl "sleep" = some (Whoop.BASE_URL ++ "/activity/sleep")
    ∧ (HttpResponse.mk 401 []).status = 401
    ∧ ((Whoop.get_records "sleep" (some []) ⟨401, []⟩ ⟨200, []⟩ ⟨500, []⟩).trace.countP
          (fun e => Event.isPost e) = 1
        ∧ (Whoop.get_records "sleep" (some []) ⟨401, []⟩ ⟨200, []⟩ ⟨500, []⟩).trace.countP
          (fun e => Event.isGet e) = 2) :=
  ⟨rfl, rfl,
    get_records_401_one_refresh_one_retry "sleep" (Whoop.BASE_URL ++ "/activity/sleep")
      (some []) ⟨401, []⟩ ⟨200, []⟩ ⟨500, []⟩ rfl rfl⟩

/-- C2: for a record type outside the four known selectors, `get_records`
logs the invalid-record-type error and performs no outbound HTTP request
(the call dies with `UnboundLocalError` on the unassigned `url` before
`requests.get` runs). -/
theorem get_records_invalid_type_no_request
    (record_type : String) (file : ConfigFile)
    (res1 refreshRes res2 : HttpResponse)
    (h : Whoop.recordUrl record_type = none) :
    (Whoop.get_records record_type file res1 refreshRes res2).trace = []
    ∧ LogEvent.errorInvalidRecordType record_type
        ∈ (Whoop.get_records record_type file res1 refreshRes res2).log
    ∧ (Whoop.get_records record_type file res1 refreshRes res2).result
        = Except.error (PyError.unboundLocal "url") := by
  unfold Whoop.get_records
  rw [h]
  exact ⟨rfl, List.mem_singleton.mpr rfl, rfl⟩

/-- Witness for C2 at the concrete unknown selector `cycles`. -/
theorem get_records_invalid_type_no_request_witness :
    Whoop.recordUrl "cycles" = none
    ∧ ((Whoop.get_records "cycles" (some []) ⟨200, []⟩ ⟨200, []⟩ ⟨200, []⟩).trace = []
        ∧ LogEvent.errorInvalidRecordType "cycles"
            ∈ (Whoop.get_records "cycles" (some []) ⟨200, []⟩ ⟨200, []⟩ ⟨200, []⟩).log
        ∧ (Whoop.get_records "cycles" (some []) ⟨200, []⟩ ⟨200, []⟩ ⟨200, []⟩).result
            = Except.error (PyError.unboundLocal "url")) :=
  ⟨rfl, get_records_invalid_type_no_request "cycles" (some []) ⟨200, []⟩ ⟨200, []⟩ ⟨200, []⟩ rfl⟩

/-- C3 counterexample: with a stored config that has no access token,
`get_records "sleep"` still issues the authenticated GET — with the
literal header value `Bearer None` — so the operation is not aborted,
even though the missing token is logged. -/
theorem get_records_missing_token_still_requests :
    (Whoop.get_records "sleep" (some [("client_id", Json.str "id")])
        ⟨200, [("records", Json.arr [])]⟩ ⟨200, []⟩ ⟨200, []⟩).trace
      = [Event.httpGet (Whoop.BASE_URL ++ "/activity/sleep") "Bearer None"]
    ∧ (Whoop.get_records "sleep" (some [("client_id", Json.str "id")])
        ⟨200, [("records", Json.arr [])]⟩ ⟨200, []⟩ ⟨200, []⟩).trace ≠ [] :=
  ⟨rfl, by decide⟩

/-- C3 amended: when the stored config has no usable access token,
`_fetch_access_token` logs the failure and returns `None`, but
`get_records` still issues the (first) GET, carrying `Bearer None` as its
Authorization header. -/
theorem get_records_missing_token_logs_and_sends_bearer_none
    (record_type url : String) (file : ConfigFile)
    (res1 refreshRes res2 : HttpResponse)
    (hurl : Whoop.recordUrl record_type = some url)
    (htok : pyGet (Whoop._load_config file) "access_token" = none) :
    (Whoop.get_records record_type file res1 refreshRes res2).trace.head?
      = some (Event.httpGet url "Bearer None")
    ∧ LogEvent.errorAccessTokenMissing
        ∈ (Whoop.get_records record_type file res1 refreshRes res2).log := by
  unfold Whoop.get_records Whoop._fetch_access_token
  rw [hurl]
  simp only [htok]
  by_cases h401 : res1.status = 401
  · simp only [h401]
    norm_num
    refine ⟨?_, ?_⟩
    · rw [finishFetch_trace]
      rfl
    · exact finishFetch_log_mem (by simp [pyStrOpt])
  · have : (res1.status == 401) = false := by simp [h401]
    simp only [this]
    norm_num
    refine ⟨?_, ?_⟩
    · rw [finishFetch_trace]
      rfl
    · exact finishFetch_log_mem (by simp [pyStrOpt])

/-- Witness for the amended C3 at a concrete config without a token. -/
theorem get_records_missing_token_logs_and_sends_bearer_none_witness :
    Whoop.recordUrl "sleep" = some (Whoop.BASE_URL ++ "/activity/sleep")
    ∧ pyGet (Whoop._load_config (some [("client_id", Json.str "id")])) "access_token" = none
    ∧ ((Whoop.get_records "sleep" (some [("client_id", Json.str "id")])
          ⟨200, []⟩ ⟨200, []⟩ ⟨200, []⟩).trace.head?
        = some (Event.httpGet (Whoop.BASE_URL ++ "/activity/sleep") "Bearer None")
      ∧ LogEvent.errorAccessTokenMissing
          ∈ (Whoop.get_records "sleep" (some [("client_id", Json.str "id")])
              ⟨200, []⟩ ⟨200, []⟩ ⟨200, []⟩).log) :=
  ⟨rfl, rfl,
    get_records_missing_token_logs_and_sends_bearer_none "sleep"
      (Whoop.BASE_URL ++ "/activity/sleep") (some [("client_id", Json.str "id")])
      ⟨200, []⟩ ⟨200, []⟩ ⟨200, []⟩ rfl rfl⟩

/-- C4: whatever the token endpoint's response — any status, any body —
`refresh_access_tokens` overwrites both stored token fields with the
response body's values (JSON null when absent); no status check guards
the write. -/
theorem refresh_access_tokens_overwrites_unconditionally
    (file : ConfigFile) (res : HttpResponse) :
    dictGet (Whoop._load_config (Whoop.refresh_access_tokens file res)) "access_token"
      = some (dictGetD res.body "access_token" Json.null)
    ∧ dictGet (Whoop._load_config (Whoop.refresh_access_tokens file res)) "refresh_token"
      = some (dictGetD res.body "refresh_token" Json.null) := by
  unfold Whoop.refresh_access_tokens Whoop._load_config
  constructor
  · rw [Option.getD_some, dictGet_setKey_other (by decide), dictGet_setKey_same]
  · rw [Option.getD_some, dictGet_setKey_same]

/-- C5: when the token endpoint answers `init_auth_flow` with an error
status (4xx/5xx), `raise_for_status` raises and the flow aborts before
any write: the persisted config file is exactly what it was. -/
theorem init_auth_flow_error_aborts_unchanged
    (file : ConfigFile) (callbackCode : String) (tokenRes : HttpResponse)
    (h400 : 400 ≤ tokenRes.status) (h600 : tokenRes.status < 600) :
    Whoop.init_auth_flow file callbackCode tokenRes
      = (Except.error (PyError.httpError tokenRes.status), file) := by
  unfold Whoop.init_auth_flow
  rw [if_pos ⟨h400, h600⟩]

/-- Witness for C5: a 401 from the token endpoint leaves a concrete config
file untouched and surfaces the HTTP error. -/
theorem init_auth_flow_error_aborts_unchanged_witness :
    400 ≤ (HttpResponse.mk 401 []).status
    ∧ (HttpResponse.mk 401 []).status < 600
    ∧ Whoop.init_auth_flow (some [("client_id", Json.str "id")]) "abc" ⟨401, []⟩
        = (Except.error (PyError.httpError 401), some [("client_id", Json.str "id")]) :=
  ⟨by decide, by decide,
    init_auth_flow_error_aborts_unchanged (some [("client_id", Json.str "id")]) "abc"
      ⟨401, []⟩ (by decide) (by decide)⟩

/-- C6: a callback GET whose query string carries a `code` parameter is
answered 200 (`text/html`, fixed success message) with the parameter's
first value captured as the callback code; a callback GET without a
`code` parameter is answered 400 (fixed failure message) and captures
nothing — the stored code is whatever it was before. -/
theorem do_GET_captures_code
    (path : String) (prevCode : Option String) :
    (∀ c rest, dictGet (parse_qs (urlQuery path)) "code" = some (c :: rest) →
        OAuthCallbackHandler.do_GET path prevCode =
          { status := 200
            contentType := some "text/html"
            body := "Authorization successful! You can close this window."
            callback_code := some c })
    ∧ (dictGet (parse_qs (urlQuery path)) "code" = none →
        OAuthCallbackHandler.do_GET path prevCode =
          { status := 400
            contentType := none
            body := "Missing authorization code in the callback URL."
            callback_code := prevCode }) := by
  unfold OAuthCallbackHandler.do_GET
  constructor
  · intro c rest h
    rw [h]
  · intro h
    rw [h]

/-- Witness for C6 at the concrete callbacks `/?code=ABC&state=xyz`
(captured, 200) and `/?state=xyz` (400, prior value kept). -/
theorem do_GET_captures_code_witness :
    dictGet (parse_qs (urlQuery "/?code=ABC&state=xyz")) "code" = some ["ABC"]
    ∧ OAuthCallbackHandler.do_GET "/?code=ABC&state=xyz" none =
        { status := 200
          contentType := some "text/html"
          body := "Authorization successful! You can close this window."
          callback_code := some "ABC" }
    ∧ dictGet (parse_qs (urlQuery "/?state=xyz")) "code" = none
    ∧ OAuthCallbackHandler.do_GET "/?state=xyz" none =
        { status := 400
          contentType := none
          body := "Missing authorization code in the callback URL."
          callback_code := none } :=
  ⟨rfl, (do_GET_captures_code "/?code=ABC&state=xyz" none).1 "ABC" [] rfl,
    rfl, (do_GET_captures_code "/?state=xyz" none).2 rfl⟩

/-- C7: when the response `get_records` ends up inspecting (the first one,
or the retried one after a 401) has a status that is neither 200 nor 401,
the call logs a fetch error and returns the empty list — no exception. -/
theorem get_records_non200_returns_empty
    (record_type url : String) (file : ConfigFile)
    (res1 refreshRes res2 : HttpResponse)
    (hurl : Whoop.recordUrl record_type = some url)
    (hne200 : (if res1.status = 401 then res2 else res1).status ≠ 200)
    (_hne401 : (if res1.status = 401 then res2 else res1).status ≠ 401) :
    (Whoop.get_records record_type file res1 refreshRes res2).result
      = Except.ok (Json.arr [])
    ∧ LogEvent.errorFetch record_type
        ∈ (Whoop.get_records record_type file res1 refreshRes res2).log := by
  unfold Whoop.get_records
  rw [hurl]
  by_cases h401 : res1.status = 401
  · rw [if_pos h401] at hne200
    simp only [h401]
    norm_num
    exact finishFetch_non200 hne200
  · rw [if_neg h401] at hne200
    have : (res1.status == 401) = false := by simp [h401]
    simp only [this]
    norm_num
    exact finishFetch_non200 hne200

/-- Witness for C7: a first response of 500 yields `[]` and a logged
fetch error. -/
theorem get_records_non200_returns_empty_witness :
    Whoop.recordUrl "recovery" = some (Whoop.BASE_URL ++ "/recovery")
    ∧ (if (HttpResponse.mk 500 []).status = 401
        then HttpResponse.mk 200 [] else HttpResponse.mk 500 []).status ≠ 200
    ∧ (if (HttpResponse.mk 500 []).status = 401
        then HttpResponse.mk 200 [] else HttpResponse.mk 500 []).status ≠ 401
    ∧ ((Whoop.get_records "recovery" (some [("access_token", Json.str "tok")])
          ⟨500, []⟩ ⟨200, []⟩ ⟨200, []⟩).result = Except.ok (Json.arr [])
      ∧ LogEvent.errorFetch "recovery"
          ∈ (Whoop.get_records "recovery" (some [("access_token", Json.str "tok")])
              ⟨500, []⟩ ⟨200, []⟩ ⟨200, []⟩).log) :=
  ⟨rfl, by decide, by decide,
    get_records_non200_returns_empty "recovery" (Whoop.BASE_URL ++ "/recovery")
      (some [("access_token", Json.str "tok")]) ⟨500, []⟩ ⟨200, []⟩ ⟨200, []⟩
      rfl (by decide) (by decide)⟩

/-- C8 counterexample: a config file that *contains* `access_token` (with
the template's initial `null` value) and merely lacks `refresh_token`.
The set of missing keys is `{refresh_token}`, but `check_config` reports
`access_token` as well — more than the missing keys. -/
theorem check_config_reports_more_than_missing :
    Whoop.check_config (some [("client_id", Json.str "a"), ("client_secret", Json.str "b"),
        ("redirect_uri", Json.str "c"), ("access_token", Json.null)])
      = ["access_token", "refresh_token"]
    ∧ specMissingKeys [("client_id", Json.str "a"), ("client_secret", Json.str "b"),
        ("redirect_uri", Json.str "c"), ("access_token", Json.null)]
      = ["refresh_token"]
    ∧ Whoop.check_config (some [("client_id", Json.str "a"), ("client_secret", Json.str "b"),
        ("redirect_uri", Json.str "c"), ("access_token", Json.null)])
      ≠ specMissingKeys [("client_id", Json.str "a"), ("client_secret", Json.str "b"),
        ("redirect_uri", Json.str "c"), ("access_token", Json.null)] :=
  ⟨rfl, rfl, by decide⟩

/-- C8 amended: `check_config` reports exactly the required keys that are
missing from the config **or stored with a `null` or empty-string
value**, no more and no fewer. -/
theorem check_config_reports_missing_or_blank
    (config : List (String × Json)) (key : String) :
    key ∈ Whoop.check_config (some config) ↔
      key ∈ Whoop.required_keys
      ∧ (dictGet config key = none ∨ dictGet config key = some Json.null
          ∨ dictGet config key = some (Json.str "")) := by
  unfold Whoop.check_config Whoop._load_config
  rw [Option.getD_some, List.mem_filter]
  constructor
  · rintro ⟨hmem, hpred⟩
    refine ⟨hmem, ?_⟩
    rcases hv : dictGet config key with _ | v
    · exact Or.inl rfl
    · rw [hv] at hpred
      cases v with
      | null => exact Or.inr (Or.inl rfl)
      | str s =>
          have hs : s = "" := eq_of_beq hpred
          subst hs
          exact Or.inr (Or.inr rfl)
      | num n => simp at hpred
      | bool b => simp at hpred
      | arr xs => simp at hpred
      | obj fields => simp at hpred
  · rintro ⟨hmem, hv⟩
    refine ⟨hmem, ?_⟩
    rcases hv with hv | hv | hv <;> simp [hv]

/-- Witness for the amended C8: on the template config with a `null`
`access_token` and no `refresh_token`, both keys are reported. -/
theorem check_config_reports_missing_or_blank_witness :
    "access_token" ∈ Whoop.check_config (some [("client_id", Json.str "a"),
        ("client_secret", Json.str "b"), ("redirect_uri", Json.str "c"),
        ("access_token", Json.null)]) :=
  (check_config_reports_missing_or_blank [("client_id", Json.str "a"),
      ("client_secret", Json.str "b"), ("redirect_uri", Json.str "c"),
      ("access_token", Json.null)] "access_token").mpr
    ⟨by decide, Or.inr (Or.inl rfl)⟩

/-- C9: `refresh_access_tokens` writes only the two token fields: every
other key of the stored config (`client_id`, `client_secret`,
`redirect_uri`, and any extra field) keeps its value in the rewritten
file. -/
theorem refresh_access_tokens_frame
    (fields : List (String × Json)) (res : HttpResponse) (key : String)
    (h1 : key ≠ "access_token") (h2 : key ≠ "refresh_token") :
    dictGet (Whoop._load_config (Whoop.refresh_access_tokens (some fields) res)) key
      = dictGet fields key := by
  unfold Whoop.refresh_access_tokens Whoop._load_config
  rw [Option.getD_some, Option.getD_some, dictGet_setKey_other h2, dictGet_setKey_other h1]

/-- Witness for C9: `client_id` survives a refresh on a concrete config. -/
theorem refresh_access_tokens_frame_witness :
    ("client_id" : String) ≠ "access_token"
    ∧ ("client_id" : String) ≠ "refresh_token"
    ∧ dictGet (Whoop._load_config (Whoop.refresh_access_tokens
        (some [("client_id", Json.str "id"), ("client_secret", Json.str "sec"),
               ("redirect_uri", Json.str "uri"), ("access_token", Json.str "old"),
               ("refresh_token", Json.str "oldr")])
        ⟨200, [("access_token", Json.str "new"), ("refresh_token", Json.str "newr")]⟩))
        "client_id"
      = dictGet [("client_id", Json.str "id"), ("client_secret", Json.str "sec"),
               ("redirect_uri", Json.str "uri"), ("access_token", Json.str "old"),
               ("refresh_token", Json.str "oldr")] "client_id" :=
  ⟨by decide, by decide,
    refresh_access_tokens_frame
      [("client_id", Json.str "id"), ("client_secret", Json.str "sec"),
       ("redirect_uri", Json.str "uri"), ("access_token", Json.str "old"),
       ("refresh_token", Json.str "oldr")]
      ⟨200, [("access_token", Json.str "new"), ("refresh_token", Json.str "newr")]⟩
      "client_id" (by decide) (by decide)⟩

/-- C10: on a 200 final response, a non-profile fetch whose body has no
`records` key yields the empty list (`.get("records", [])`), and a
profile fetch yields the whole body wrapped in a one-element list. -/
theorem get_records_success_shapes
    (record_type url : String) (file : ConfigFile)
    (res1 refreshRes res2 : HttpResponse)
    (hurl : Whoop.recordUrl record_type = some url)
    (h200 : (if res1.status = 401 then res2 else res1).status = 200) :
    (record_type ≠ "profile" →
        dictGet (if res1.status = 401 then res2 else res1).body "records" = none →
        (Whoop.get_records record_type file res1 refreshRes res2).result
          = Except.ok (Json.arr []))
    ∧ (record_type = "profile" →
        (Whoop.get_records record_type file res1 refreshRes res2).result
          = Except.ok (Json.arr
              [Json.obj (if res1.status = 401 then res2 else res1).body])) := by
  unfold Whoop.get_records
  rw [hurl]
  by_cases h401 : res1.status = 401
  · rw [if_pos h401] at h200 ⊢
    simp only [h401]
    norm_num
    rw [finishFetch_200 h200]
    constructor
    · intro hp hrec
      rw [if_neg hp]
      simp [dictGetD, hrec]
    · intro hp
      rw [if_pos hp]
  · rw [if_neg h401] at h200 ⊢
    have : (res1.status == 401) = false := by simp [h401]
    simp only [this]
    norm_num
    rw [finishFetch_200 h200]
    constructor
    · intro hp hrec
      rw [if_neg hp]
      simp [dictGetD, hrec]
    · intro hp
      rw [if_pos hp]

/-- Witness for C10: a 200 `sleep` response with no `records` key gives
`[]`, and a 200 `profile` response is wrapped whole. -/
theorem get_records_success_shapes_witness :
    (Whoop.get_records "sleep" (some [("access_token", Json.str "tok")])
        ⟨200, [("next_token", Json.null)]⟩ ⟨200, []⟩ ⟨200, []⟩).result
      = Except.ok (Json.arr [])
    ∧ (Whoop.get_records "profile" (some [("access_token", Json.str "tok")])
        ⟨200, [("user_id", Json.num 7)]⟩ ⟨200, []⟩ ⟨200, []⟩).result
      = Except.ok (Json.arr [Json.obj [("user_id", Json.num 7)]]) :=
  ⟨(get_records_success_shapes "sleep" (Whoop.BASE_URL ++ "/activity/sleep")
      (some [("access_token", Json.str "tok")]) ⟨200, [("next_token", Json.null)]⟩
      ⟨200, []⟩ ⟨200, []⟩ rfl (by decide)).1 (by decide) rfl,
   (get_records_success_shapes "profile" (Whoop.BASE_URL ++ "/user/profile/basic")
      (some [("access_token", Json.str "tok")]) ⟨200, [("user_id", Json.num 7)]⟩
      ⟨200, []⟩ ⟨200, []⟩ rfl (by decide)).2 rfl⟩
